import Mathlib

/-!
# Verification of the postgres monitoring agent's transmission pipeline

Shallow embedding of the transmission and resilience pipeline of the
`postgres-agent` repository (circuit breaker, persistent FIFO buffer with
eviction, HTTP sender, buffer drain, collection cycle, log pump, and the
`pg_stat_statements` availability cache), together with theorems settling
the specification claims about it.

Conventions of the embedding:
* machine time is a `Nat` (seconds since epoch);
* the on-disk buffer (a persistqueue `FIFOSQLiteQueue` created with
  `auto_commit=True`, so a `get` durably removes the entry at once and
  `task_done` is a no-op) is a `List Payload`, oldest first, and
  `bytes_on_disk` is the sum of the serialized entry sizes;
* sizes are abstract byte units; the source compares floating-point
  megabyte values (`size_mb > max`, target `0.8 * max`), which we render
  exactly over `Nat` as `size > maxB` and `10 * size > 8 * maxB`;
* the network is an oracle: each POST consumes a `NetOutcome`, either a
  response with a status code or a raised transport error
  (`requests.RequestException` or any other exception);
* the module-level singletons (`_breaker`, `_buffer`) are threaded as
  explicit state.
-/

namespace AgentProfiler

/-! ## Circuit breaker (`transmission/circuit_breaker.py`, pybreaker semantics)

pybreaker's `CircuitBreaker` as configured by `get_circuit_breaker`:
`opened t` records the time the breaker entered the open state.  In the
open state a wrapped call raises `CircuitBreakerError` without touching
the network while `now < openedAt + resetTimeout`; once the reset timeout
has elapsed the next wrapped call first moves the breaker to half-open and
then performs the single trial call.  A success closes the breaker and
resets the failure counter; a failure increments it and opens the breaker
when it reaches `failMax` (immediately, in the half-open state). -/

inductive BreakerState where
  | closed
  | opened (openedAt : Nat)
  | halfOpen
deriving DecidableEq, Repr

structure Breaker where
  state : BreakerState
  failCount : Nat
  failMax : Nat
  resetTimeout : Nat
deriving DecidableEq, Repr

/-- Embeds `is_circuit_open`: `_breaker.current_state == 'open'`.  pybreaker updates
the stored state lazily, so this is true from the moment the breaker opens
until a wrapped call observes the elapsed reset timeout. -/
def isCircuitOpen (b : Breaker) : Bool :=
  match b.state with
  | .opened _ => true
  | _ => false

/-- Effect on the breaker of a successful wrapped call (pybreaker resets the
failure counter and closes the breaker). -/
def breakerSuccess (b : Breaker) : Breaker :=
  { b with state := .closed, failCount := 0 }

/-- Effect on the breaker of a failing wrapped call at time `now`. -/
def breakerFailure (b : Breaker) (now : Nat) : Breaker :=
  match b.state with
  | .closed =>
      if b.failCount + 1 ≥ b.failMax then
        { b with state := .opened now, failCount := b.failCount + 1 }
      else
        { b with failCount := b.failCount + 1 }
  | .halfOpen => { b with state := .opened now, failCount := b.failCount + 1 }
  | .opened t => { b with state := .opened t, failCount := b.failCount + 1 }

/-! ## Envelopes and configuration -/

/-- The payload built by `send_to_listener` (`http_client.py`, lines 45-51)
and stored in the buffer as its JSON serialization.  `size` is the length in
bytes of the serialized form (what the buffer's on-disk size accounts). -/
structure Payload where
  correlationId : String
  project : String
  timestamp : Nat
  source : String
  size : Nat
deriving DecidableEq, Repr

/-- The slice of `Config` (`config.py`) that the transmission pipeline
reads. -/
structure Config where
  projectId : String
  maxBytes : Nat
deriving DecidableEq, Repr

/-- The `data` dict handed to `send_to_listener`: only its optional
`correlation_id` entry and its serialized size are observable here. -/
structure RecordData where
  correlationId : Option String
  size : Nat
deriving DecidableEq, Repr

/-- Payload construction (`http_client.py` lines 45-51):
`data.get('correlation_id', '')`, `config.project_id`, `time.time()`, the
caller-supplied source tag, and the data body. -/
def mkPayload (cfg : Config) (now : Nat) (data : RecordData) (source : String) : Payload :=
  { correlationId := data.correlationId.getD ""
    project := cfg.projectId
    timestamp := now
    source := source
    size := data.size }

/-- The `project_id` resolution in `load_config` (`config.py` lines 41, 88,
107-115): default `"default"`, overridden by the INI `[listener] project_id`
value when the key is present, overridden in turn by the
`BITVILLE_PG_PROJECT_ID` environment variable whenever it is set — including
when it is set to the empty string, since the code only tests
`value is not None`. -/
def loadProjectId (iniProjectId : Option String) (envProjectId : Option String) : String :=
  envProjectId.getD (iniProjectId.getD "default")

/-! ## Persistent buffer (`transmission/buffer.py`) -/

/-- The FIFO buffer contents, oldest entry first. -/
abbrev Buffer := List Payload

/-- On-disk size of the buffer: sum of the serialized entry sizes. -/
def bytesOnDisk (buf : Buffer) : Nat := (buf.map Payload.size).sum

/-- The eviction loop of `_check_and_evict_if_needed` (lines 105-112):
`while size_mb > target_mb and qsize > 0`, dequeue the oldest entry; the
target is 80% of the maximum.  Returns the surviving buffer and the number
of evicted entries. -/
def evictWhile (maxB : Nat) : Buffer → Buffer × Nat
  | [] => ([], 0)
  | e :: rest =>
      if 10 * bytesOnDisk (e :: rest) > 8 * maxB then
        let p := evictWhile maxB rest
        (p.1, p.2 + 1)
      else
        (e :: rest, 0)

/-- Embeds `_check_and_evict_if_needed` (lines 72-121): eviction runs only when the
on-disk size strictly exceeds the configured maximum. -/
def checkAndEvict (maxB : Nat) (buf : Buffer) : Buffer × Nat :=
  if bytesOnDisk buf > maxB then evictWhile maxB buf else (buf, 0)

/-- Embeds `buffer_data` (lines 124-153): evict if needed, then append the new
entry at the tail.  Returns the new buffer and the eviction count. -/
def bufferData (maxB : Nat) (buf : Buffer) (p : Payload) : Buffer × Nat :=
  let q := checkAndEvict maxB buf
  (q.1 ++ [p], q.2)

/-! ## HTTP sender (`transmission/http_client.py`) -/

/-- Outcome of one `requests.post` call: a response with a status code, or a
raised exception (transport error). -/
inductive NetOutcome where
  | resp (status : Nat)
  | transportError
deriving DecidableEq, Repr

/-- The call `response.raise_for_status()` raises `requests.HTTPError` exactly for
client-error (4xx) and server-error (5xx) status codes. -/
def raisesForStatus (s : Nat) : Bool := 400 ≤ s && s < 600

/-- The breaker-wrapped `_send` body: POST, then `raise_for_status`.
Returns whether the wrapped call succeeded and the breaker after pybreaker
records the outcome. -/
def attemptPost (b : Breaker) (now : Nat) (net : NetOutcome) : Bool × Breaker :=
  match net with
  | .resp s => if raisesForStatus s then (false, breakerFailure b now) else (true, breakerSuccess b)
  | .transportError => (false, breakerFailure b now)

/-- Result of `send_to_listener`: the returned boolean (`True` = sent,
`False` = buffered), the breaker and buffer after the call, whether a
network request was issued, and how many buffer entries were evicted. -/
structure SendResult where
  sent : Bool
  breaker : Breaker
  buffer : Buffer
  didRequest : Bool
  evicted : Nat
deriving DecidableEq, Repr

/-- Embeds `send_to_listener` (lines 21-103): build the payload; run the POST under
the circuit breaker.  On `CircuitBreakerError` (breaker open, reset timeout
not yet elapsed) the envelope is buffered without any network attempt; once
the reset timeout has elapsed the breaker moves to half-open and performs
the single trial call.  Any failure (non-2xx promoted to an exception by
`raise_for_status`, or a transport error) is recorded by the breaker and
the envelope is buffered via `buffer_data`. -/
def sendToListener (cfg : Config) (b : Breaker) (buf : Buffer) (now : Nat)
    (data : RecordData) (source : String) (net : NetOutcome) : SendResult :=
  let payload := mkPayload cfg now data source
  match b.state with
  | .opened openedAt =>
      if now < openedAt + b.resetTimeout then
        let q := bufferData cfg.maxBytes buf payload
        { sent := false, breaker := b, buffer := q.1, didRequest := false, evicted := q.2 }
      else
        let r := attemptPost { b with state := .halfOpen } now net
        if r.1 then
          { sent := true, breaker := r.2, buffer := buf, didRequest := true, evicted := 0 }
        else
          let q := bufferData cfg.maxBytes buf payload
          { sent := false, breaker := r.2, buffer := q.1, didRequest := true, evicted := q.2 }
  | _ =>
      let r := attemptPost b now net
      if r.1 then
        { sent := true, breaker := r.2, buffer := buf, didRequest := true, evicted := 0 }
      else
        let q := bufferData cfg.maxBytes buf payload
        { sent := false, breaker := r.2, buffer := q.1, didRequest := true, evicted := q.2 }

/-! ## Buffer drain (`flush_buffer`, `transmission/buffer.py` lines 156-232) -/

/-- Result of `flush_buffer`: the buffer afterwards, the number of entries
acknowledged (`sent`), the number of POSTs issued, and the breaker
afterwards (the drain path never notifies the breaker; it only reads
`is_circuit_open`, so the breaker is returned unchanged). -/
structure FlushResult where
  buffer : Buffer
  breaker : Breaker
  sent : Nat
  requests : Nat
deriving DecidableEq, Repr

/-- The `for _ in range(min(remaining, max_items))` loop of `flush_buffer`
(lines 184-223).  `fuel` is the remaining loop iterations, `k` indexes the
network oracle by POST count.  Each iteration: stop if the breaker is open;
dequeue the oldest entry (an empty queue raises `Empty`, caught by the
generic handler, which breaks); POST the stored envelope directly with
`requests.post` (no circuit-breaker involvement).  Status 200 acknowledges
the entry (`task_done`) and continues; any other status re-puts the entry
at the tail of the queue and breaks; a raised exception breaks without
re-putting the already-dequeued entry. -/
def flushLoop (b : Breaker) (net : Nat → NetOutcome) : Nat → Nat → Buffer → FlushResult
  | 0, _, buf => { buffer := buf, breaker := b, sent := 0, requests := 0 }
  | fuel + 1, k, buf =>
      if isCircuitOpen b then
        { buffer := buf, breaker := b, sent := 0, requests := 0 }
      else
        match buf with
        | [] => { buffer := [], breaker := b, sent := 0, requests := 0 }
        | e :: rest =>
            match net k with
            | .resp status =>
                if status = 200 then
                  let r := flushLoop b net fuel (k + 1) rest
                  { buffer := r.buffer, breaker := b, sent := r.sent + 1,
                    requests := r.requests + 1 }
                else
                  { buffer := rest ++ [e], breaker := b, sent := 0, requests := 1 }
            | .transportError =>
                { buffer := rest, breaker := b, sent := 0, requests := 1 }

/-- Embeds `flush_buffer` (lines 156-232): return immediately on an empty queue,
otherwise run the drain loop for at most `min (qsize) maxItems`
iterations. -/
def flushBuffer (b : Breaker) (buf : Buffer) (maxItems : Nat)
    (net : Nat → NetOutcome) : FlushResult :=
  if buf.length = 0 then { buffer := buf, breaker := b, sent := 0, requests := 0 }
  else flushLoop b net (min buf.length maxItems) 0 buf

/-! ## Collection cycle (`daemon.py`, `_collection_cycle` lines 188-289) -/

/-- The per-tick sampler results as the cycle sees them: three row lists and
the system-metrics dict (its entries).  On a sampler failure the cycle
substitutes `[]` (resp. `{}`), so emptiness is the only property the send
section inspects. -/
structure CycleResults (α : Type) where
  pgActivity : List α
  pgStatements : List α
  locks : List α
  systemMetrics : List (String × α)
deriving DecidableEq, Repr

/-- The sequence of `send_to_listener` source tags issued by the send
section of `_collection_cycle` (lines 235-278): `pg_stat_activity` and
`pg_stat_statements` only when their result lists are non-empty (Python
truthiness of a list), `pg_locks` unconditionally ("always send, even if
empty"), and `system_metrics` unconditionally (the code has no emptiness
guard on it). -/
def cycleSends {α : Type} (r : CycleResults α) : List String :=
  (if r.pgActivity.isEmpty then [] else ["pg_stat_activity"])
    ++ (if r.pgStatements.isEmpty then [] else ["pg_stat_statements"])
    ++ ["pg_locks"]
    ++ ["system_metrics"]

/-- The closed set of source tags the daemon ever passes to
`send_to_listener` (the four cycle tags plus `pg_log` from
`_send_log_entries`). -/
def allowedSources : List String :=
  ["pg_stat_activity", "pg_stat_statements", "pg_locks", "pg_log", "system_metrics"]

/-! ## Log parsing and the log pump (`collectors/log_parser.py`,
`daemon.py` lines 103-130) -/

/-- A JSON-representable value stored in a parsed log-entry dict.  The
`duration_ms` float is carried as its matched decimal text. -/
inductive LVal where
  | str (s : String)
  | nat (n : Nat)
deriving DecidableEq, Repr

/-- The named capture groups of a successful match of `LOG_LINE_PATTERN`
(or `LOG_LINE_SIMPLE`, whose `user`/`db` groups are absent) against a log
line: these are exactly the inputs from which `parse_log_line` builds its
result dict (lines 70-96). -/
structure LogMatch where
  timestamp : String
  pid : Nat
  user : Option String
  db : Option String
  level : String
  message : String
deriving DecidableEq, Repr

/-- Split a character list at the first occurrence of `sep`: the part
before it and the part after it, or `none` when `sep` does not occur. -/
def findSub (sep : List Char) : List Char → Option (List Char × List Char)
  | [] => if sep.isEmpty then some ([], []) else none
  | c :: rest =>
      if sep.isPrefixOf (c :: rest) then some ([], (c :: rest).drop sep.length)
      else
        match findSub sep rest with
        | some q => some (c :: q.1, q.2)
        | none => none

/-- Python `str.strip()`: drop leading and trailing whitespace. -/
def stripChars (xs : List Char) : List Char :=
  ((xs.dropWhile Char.isWhitespace).reverse.dropWhile Char.isWhitespace).reverse

/-- Embeds `DURATION_PATTERN.search` (`duration:\s+([\d.]+)\s+ms`): locate
`duration: <number> ms` in the message and return the matched number text
(digits and dots after `duration: `, followed by ` ms`; whitespace runs are
rendered as single spaces). -/
def findDuration (msg : String) : Option String :=
  match findSub "duration: ".toList msg.toList with
  | some q =>
      let numChars := q.2.takeWhile (fun c => c.isDigit || c = '.')
      if numChars ≠ [] && " ms".toList.isPrefixOf (q.2.drop numChars.length) then
        some (String.mk numChars)
      else none
  | none => none

/-- Embeds `STATEMENT_PATTERN.search` (`statement:\s+(.+)`, DOTALL) followed by
`.strip()` and the truncation of lines 89-94: the stripped text after the
first `statement: `, truncated to 2000 characters with a `...[truncated]`
suffix. -/
def findStatement (msg : String) : Option String :=
  match findSub "statement: ".toList msg.toList with
  | some q =>
      let stmt := stripChars q.2
      if stmt.isEmpty then none
      else if stmt.length > 2000 then some (String.mk (stmt.take 2000) ++ "...[truncated]")
      else some (String.mk stmt)
  | none => none

/-- An optional dict binding: `result[k] = v` is executed only when the
corresponding capture or search produced a value. -/
def optField (k : String) : Option LVal → List (String × LVal)
  | some v => [(k, v)]
  | none => []

/-- The dict built by `parse_log_line` (lines 70-96) from a successful
regex match: the four mandatory keys, then `user`/`database` when captured,
then `duration_ms`/`statement` when found in the message.  No
`correlation_id` key is ever inserted. -/
def parsedEntry (m : LogMatch) : List (String × LVal) :=
  [("timestamp", .str m.timestamp), ("pid", .nat m.pid),
   ("level", .str m.level), ("message", .str m.message)]
    ++ optField "user" (m.user.map .str)
    ++ optField "database" (m.db.map .str)
    ++ optField "duration_ms" ((findDuration m.message).map .str)
    ++ optField "statement" ((findStatement m.message).map .str)

/-- Python `dict.get(key)`: first binding of `key`, or `None`. -/
def dictGet : List (String × LVal) → String → Option LVal
  | [], _ => none
  | p :: rest, k => if p.1 = k then some p.2 else dictGet rest k

/-- Python truthiness of a `dict.get` result: `None`, `""` and `0` are
falsy. -/
def truthy : Option LVal → Bool
  | none => false
  | some (.str s) => s ≠ ""
  | some (.nat n) => n ≠ 0

/-- Embeds `LogCollector.add` (`log_parser.py` lines 201-212): append the entry
and report whether the batch has reached `max_entries`. -/
def collectorAdd (maxEntries : Nat) (batch : List (List (String × LVal)))
    (e : List (String × LVal)) : List (List (String × LVal)) × Bool :=
  let b := batch ++ [e]
  (b, decide (b.length ≥ maxEntries))

/-- One step of the log pump worker (`daemon.py` lines 112-120): add the
parsed entry to the collector, then flush (emptying the batch) when the
batch is full **or** `entry.get('correlation_id')` is truthy.  Returns the
batch afterwards and whether a flush happened. -/
def pumpStep (maxEntries : Nat) (batch : List (List (String × LVal)))
    (e : List (String × LVal)) : List (List (String × LVal)) × Bool :=
  let r := collectorAdd maxEntries batch e
  if r.2 || truthy (dictGet e "correlation_id") then ([], true) else (r.1, false)

/-! ## `pg_stat_statements` availability cache (`collectors/pg_statements.py`) -/

/-- The module-level `_extension_available` cache. -/
structure StmtState where
  extensionAvailable : Option Bool
deriving DecidableEq, Repr

/-- Outcome of the `SELECT COUNT(*) FROM pg_extension ...` probe: the
`fetchone()` result, or a raised exception (which includes transient
connection failures). -/
inductive DbCheckOutcome where
  | ok (result : Option Nat)
  | exc
deriving DecidableEq, Repr

/-- Result of `check_pg_stat_statements`: the returned boolean, the cache
afterwards, and whether the probe query was actually issued. -/
structure CheckResult where
  available : Bool
  state : StmtState
  queriedExtension : Bool
deriving DecidableEq, Repr

/-- Embeds `check_pg_stat_statements` (lines 19-59): return the cached value when
present; otherwise probe, cache `result is not None and result[0] > 0`, and
on any exception cache `False`. -/
def checkPgStatStatements (s : StmtState) (db : DbCheckOutcome) : CheckResult :=
  match s.extensionAvailable with
  | some v => { available := v, state := s, queriedExtension := false }
  | none =>
      match db with
      | .ok result =>
          let avail := match result with | some n => decide (n > 0) | none => false
          { available := avail, state := ⟨some avail⟩, queriedExtension := true }
      | .exc => { available := false, state := ⟨some false⟩, queriedExtension := true }

/-- Result of `collect_pg_statements`: the returned rows, the cache
afterwards, and whether a query against `pg_stat_statements` was issued. -/
structure CollectResult (α : Type) where
  rows : List α
  state : StmtState
  queriedStatements : Bool
deriving DecidableEq, Repr

/-- Embeds `collect_pg_statements` (lines 62-77 and onwards): consult the cached
availability check; when it reports `False`, return `[]` without touching
`pg_stat_statements`; otherwise run the top-N query, whose (shaped) rows
are supplied by the `queryRows` oracle. -/
def collectPgStatements {α : Type} (s : StmtState) (db : DbCheckOutcome)
    (queryRows : List α) : CollectResult α :=
  let c := checkPgStatStatements s db
  if c.available then
    { rows := queryRows, state := c.state, queriedStatements := true }
  else
    { rows := [], state := c.state, queriedStatements := false }

/-- A whole process lifetime of `collect_pg_statements` calls, threading the
module-level cache through: each element of `calls` supplies the probe
outcome and the query rows the database would return for that call. -/
def collectRun {α : Type} (s : StmtState) : List (DbCheckOutcome × List α) → List (CollectResult α)
  | [] => []
  | c :: rest =>
      let r := collectPgStatements s c.1 c.2
      r :: collectRun r.state rest

/-! ## Concrete fixtures used by counterexamples and witnesses -/

/-- A stored envelope of serialized size 9. -/
def pA : Payload := ⟨"", "default", 0, "pg_locks", 9⟩

/-- A stored envelope of serialized size 5, distinct from `pA`. -/
def pB : Payload := ⟨"", "default", 1, "pg_log", 5⟩

/-- A stored envelope of serialized size 12. -/
def pC : Payload := ⟨"", "default", 2, "pg_stat_activity", 12⟩

/-- A breaker in the closed state with no recorded failures. -/
def bClosed : Breaker := ⟨.closed, 0, 5, 60⟩

/-- A breaker that opened at time 100 (fail_max 5, reset_timeout 60). -/
def bOpen : Breaker := ⟨.opened 100, 5, 5, 60⟩

/-- A configuration with the default project id and a 100-unit buffer cap. -/
def cfgX : Config := ⟨"default", 100⟩

/-- A data dict with no correlation id, serialized size 10. -/
def dX : RecordData := ⟨none, 10⟩

/-! ## Helper lemmas -/

theorem bytesOnDisk_append (l₁ l₂ : Buffer) :
    bytesOnDisk (l₁ ++ l₂) = bytesOnDisk l₁ + bytesOnDisk l₂ := by
  simp [bytesOnDisk]

theorem bytesOnDisk_singleton (p : Payload) : bytesOnDisk [p] = p.size := by
  simp [bytesOnDisk]

theorem evictWhile_target (maxB : Nat) (buf : Buffer) :
    10 * bytesOnDisk (evictWhile maxB buf).1 ≤ 8 * maxB := by
  induction buf with
  | nil => simp [evictWhile, bytesOnDisk]
  | cons e rest ih =>
      by_cases h : 10 * bytesOnDisk (e :: rest) > 8 * maxB
      · simpa [evictWhile, h] using ih
      · simp [evictWhile, h]
        omega

theorem evictWhile_suffix (maxB : Nat) (buf : Buffer) :
    (evictWhile maxB buf).1 <:+ buf := by
  induction buf with
  | nil => simp [evictWhile]
  | cons e rest ih =>
      by_cases h : 10 * bytesOnDisk (e :: rest) > 8 * maxB
      · simp only [evictWhile, if_pos h]
        exact ih.trans (List.suffix_cons e rest)
      · simp [evictWhile, h]

theorem evictWhile_count (maxB : Nat) (buf : Buffer) :
    (evictWhile maxB buf).2 + (evictWhile maxB buf).1.length = buf.length := by
  induction buf with
  | nil => simp [evictWhile]
  | cons e rest ih =>
      by_cases h : 10 * bytesOnDisk (e :: rest) > 8 * maxB
      · simp only [evictWhile, if_pos h, List.length_cons]
        omega
      · simp [evictWhile, h]

theorem checkAndEvict_bytes_le (maxB : Nat) (buf : Buffer) :
    bytesOnDisk (checkAndEvict maxB buf).1 ≤ maxB := by
  unfold checkAndEvict
  by_cases h : bytesOnDisk buf > maxB
  · simp only [if_pos h]
    have := evictWhile_target maxB buf
    omega
  · simp only [if_neg h]
    omega

theorem flushLoop_breaker (b : Breaker) (net : Nat → NetOutcome) :
    ∀ fuel k buf, (flushLoop b net fuel k buf).breaker = b := by
  intro fuel
  induction fuel with
  | zero => intro k buf; rfl
  | succ f ih =>
      intro k buf
      by_cases hb : isCircuitOpen b
      · simp [flushLoop, hb]
      · cases buf with
        | nil => simp [flushLoop, hb]
        | cons e rest =>
            cases hnet : net k with
            | resp s =>
                by_cases hs : s = 200
                · simp [flushLoop, hb, hnet, hs, ih]
                · simp [flushLoop, hb, hnet, hs]
            | transportError => simp [flushLoop, hb, hnet]

theorem cycleSends_allowed {α : Type} (r : CycleResults α) :
    (cycleSends r).all (fun s => allowedSources.contains s) = true := by
  cases h1 : r.pgActivity.isEmpty <;> cases h2 : r.pgStatements.isEmpty <;>
    simp [cycleSends, h1, h2, allowedSources]

/-! ## Claim theorems -/

/-- Claim C9 (counterexample): the invariant "for every buffer state,
`bytes_on_disk ≤ max_bytes`" fails on a state reachable by two plain puts.
With `max_bytes = 10`, putting an entry of size 9 and then one of size 5
triggers no eviction (eviction only runs when the size already *exceeds*
the maximum before the put), leaving 14 bytes on disk. -/
theorem c9_state_exceeds_max :
    bufferData 10 [] pA = ([pA], 0) ∧
    bufferData 10 [pA] pB = ([pA, pB], 0) ∧
    10 < bytesOnDisk [pA, pB] := by
  refine ⟨rfl, rfl, by decide⟩

/-- Claim C9 (amended): before every put, eviction runs only when
`bytes_on_disk` strictly exceeds `max_bytes`, and then discards oldest
entries until `bytes_on_disk ≤ 0.8 × max_bytes` (or the buffer empties);
only afterwards is the new entry appended, and the evicted entries are
counted.  Consequently `bytes_on_disk ≤ max_bytes` holds immediately before
every append, and after an append the state can exceed `max_bytes` by up to
the size of the new entry. -/
theorem c9_put_eviction_bounds (maxB : Nat) (buf : Buffer) (p : Payload) :
    (bufferData maxB buf p).1 = (checkAndEvict maxB buf).1 ++ [p] ∧
    (bufferData maxB buf p).2 = (checkAndEvict maxB buf).2 ∧
    (bytesOnDisk buf ≤ maxB → checkAndEvict maxB buf = (buf, 0)) ∧
    (bytesOnDisk buf > maxB → 10 * bytesOnDisk (checkAndEvict maxB buf).1 ≤ 8 * maxB) ∧
    bytesOnDisk (checkAndEvict maxB buf).1 ≤ maxB ∧
    bytesOnDisk (bufferData maxB buf p).1 ≤ maxB + p.size ∧
    (checkAndEvict maxB buf).1 <:+ buf ∧
    (checkAndEvict maxB buf).2 + (checkAndEvict maxB buf).1.length = buf.length := by
  refine ⟨rfl, rfl, ?_, ?_, checkAndEvict_bytes_le maxB buf, ?_, ?_, ?_⟩
  · intro h
    simp [checkAndEvict, Nat.not_lt.mpr h]
  · intro h
    simp only [checkAndEvict, if_pos h]
    exact evictWhile_target maxB buf
  · have h1 := checkAndEvict_bytes_le maxB buf
    have h2 : (bufferData maxB buf p).1 = (checkAndEvict maxB buf).1 ++ [p] := rfl
    rw [h2, bytesOnDisk_append, bytesOnDisk_singleton]
    omega
  · unfold checkAndEvict
    by_cases h : bytesOnDisk buf > maxB
    · simp only [if_pos h]
      exact evictWhile_suffix maxB buf
    · simp [if_neg h]
  · unfold checkAndEvict
    by_cases h : bytesOnDisk buf > maxB
    · simp only [if_pos h]
      exact evictWhile_count maxB buf
    · simp [if_neg h]

/-- Witness for `c9_put_eviction_bounds`: the no-eviction branch at a buffer
of 9 bytes under a 10-byte cap, and the eviction branch at a buffer of 12
bytes under a 10-byte cap. -/
theorem c9_put_eviction_bounds_witness :
    (bytesOnDisk [pA] ≤ 10 ∧ checkAndEvict 10 [pA] = ([pA], 0)) ∧
    (bytesOnDisk [pC] > 10 ∧ 10 * bytesOnDisk (checkAndEvict 10 [pC]).1 ≤ 8 * 10) := by
  exact ⟨⟨by decide, (c9_put_eviction_bounds 10 [pA] pB).2.2.1 (by decide)⟩,
         ⟨by decide, (c9_put_eviction_bounds 10 [pC] pB).2.2.2.1 (by decide)⟩⟩

/-- Claim C1: in `flush_buffer`, an entry dequeued from the persistqueue
(whose `auto_commit=True` makes the removal durable at `get`) whose POST
raises a transport error is **not** re-enqueued: the exception handler
breaks out of the loop and the envelope is lost, contradicting both the
claim and the code's own comment that a failed re-send "will re-buffer on
failure".  Evaluated at the failing input: a one-entry buffer whose drain
POST raises. -/
theorem c1_flush_transport_error_discards_entry :
    flushBuffer bClosed [pA] 100 (fun _ => NetOutcome.transportError) =
      { buffer := [], breaker := bClosed, sent := 0, requests := 1 } := by
  rfl

/-- Claim C2 (counterexample): a drain failure re-enqueues the dequeued
entry at the **tail**, not the head: flushing `[pA, pB]` against a listener
answering 503 leaves the buffer as `[pB, pA]`, so the relative order of
buffered envelopes is not preserved across a failed drain. -/
theorem c2_flush_failure_reorders_queue :
    flushBuffer bClosed [pA, pB] 100 (fun _ => NetOutcome.resp 503) =
      { buffer := [pB, pA], breaker := bClosed, sent := 0, requests := 1 } ∧
    [pB, pA] ≠ [pA, pB] := by
  exact ⟨rfl, by decide⟩

/-- Claim C2 (amended): when flushing fails on the first dequeued item with
a non-200 response, the item is re-enqueued at the **tail** of the FIFO
queue (behind every later entry) and the drain stops; the entry itself is
preserved but per-source FIFO order is not. -/
theorem c2_flush_failure_requeues_at_tail (b : Breaker) (e : Payload) (rest : Buffer)
    (maxItems : Nat) (s : Nat) (net : Nat → NetOutcome)
    (hopen : isCircuitOpen b = false) (hmax : 0 < maxItems)
    (hnet : net 0 = NetOutcome.resp s) (hs : s ≠ 200) :
    flushBuffer b (e :: rest) maxItems net =
      { buffer := rest ++ [e], breaker := b, sent := 0, requests := 1 } := by
  obtain ⟨f, hf⟩ : ∃ f, min (rest.length + 1) maxItems = f + 1 :=
    ⟨min (rest.length + 1) maxItems - 1, by omega⟩
  simp only [flushBuffer, List.length_cons]
  rw [if_neg (by omega), hf]
  simp [flushLoop, hopen, hnet, hs]

/-- Witness for `c2_flush_failure_requeues_at_tail` at a two-entry buffer
and a 503 response. -/
theorem c2_flush_failure_requeues_at_tail_witness :
    isCircuitOpen bClosed = false ∧ 0 < 100 ∧
    (fun _ : Nat => NetOutcome.resp 503) 0 = NetOutcome.resp 503 ∧ 503 ≠ 200 ∧
    flushBuffer bClosed [pA, pB] 100 (fun _ => NetOutcome.resp 503) =
      { buffer := [pB] ++ [pA], breaker := bClosed, sent := 0, requests := 1 } := by
  exact ⟨rfl, by decide, rfl, by decide,
    c2_flush_failure_requeues_at_tail bClosed pA [pB] 100 503 _ rfl (by decide) rfl (by decide)⟩

/-- Claim C3 (counterexample): a POST issued by the drain path that fails
with a 503 does **not** notify the circuit breaker: `flush_buffer` performs
its POSTs directly with `requests.post`, outside the breaker, so the
breaker is left exactly as it was even though a request was issued and
failed (a breaker-notified failure would have changed it, as the last
conjunct shows). -/
theorem c3_flush_failure_skips_breaker :
    (flushBuffer bClosed [pA] 100 (fun _ => NetOutcome.resp 503)).requests = 1 ∧
    (flushBuffer bClosed [pA] 100 (fun _ => NetOutcome.resp 503)).sent = 0 ∧
    (flushBuffer bClosed [pA] 100 (fun _ => NetOutcome.resp 503)).breaker = bClosed ∧
    breakerFailure bClosed 0 ≠ bClosed := by
  exact ⟨rfl, rfl, rfl, by decide⟩

/-- Claim C3 (amended): a failed POST in `send_to_listener` (non-2xx
promoted to an error by `raise_for_status`, or a transport error) notifies
the breaker of a failure, enqueues the envelope into the buffer and returns
the buffered outcome; but the periodic drain path performs its POSTs
outside the breaker, so drain failures never notify the breaker (its state
is unchanged by any `flush_buffer` call). -/
theorem c3_send_failure_feeds_breaker_drain_does_not :
    (∀ cfg b buf now data src s, b.state = .closed → raisesForStatus s = true →
      sendToListener cfg b buf now data src (.resp s) =
        { sent := false, breaker := breakerFailure b now,
          buffer := (bufferData cfg.maxBytes buf (mkPayload cfg now data src)).1,
          didRequest := true,
          evicted := (bufferData cfg.maxBytes buf (mkPayload cfg now data src)).2 }) ∧
    (∀ cfg b buf now data src, b.state = .closed →
      sendToListener cfg b buf now data src .transportError =
        { sent := false, breaker := breakerFailure b now,
          buffer := (bufferData cfg.maxBytes buf (mkPayload cfg now data src)).1,
          didRequest := true,
          evicted := (bufferData cfg.maxBytes buf (mkPayload cfg now data src)).2 }) ∧
    (∀ b buf maxItems net, (flushBuffer b buf maxItems net).breaker = b) := by
  refine ⟨?_, ?_, ?_⟩
  · intro cfg b buf now data src s hb hs
    obtain ⟨st, fc, fm, rt⟩ := b
    simp only at hb
    subst hb
    simp [sendToListener, attemptPost, hs]
  · intro cfg b buf now data src hb
    obtain ⟨st, fc, fm, rt⟩ := b
    simp only at hb
    subst hb
    simp [sendToListener, attemptPost]
  · intro b buf maxItems net
    unfold flushBuffer
    by_cases h : buf.length = 0
    · simp [h]
    · simp only [if_neg h]
      exact flushLoop_breaker b net _ 0 buf

/-- Witness for `c3_send_failure_feeds_breaker_drain_does_not` at a closed
breaker, a 503 response, a transport error, and a concrete drain. -/
theorem c3_send_failure_feeds_breaker_drain_does_not_witness :
    bClosed.state = .closed ∧ raisesForStatus 503 = true ∧
    sendToListener cfgX bClosed [] 7 dX "pg_log" (.resp 503) =
      { sent := false, breaker := breakerFailure bClosed 7,
        buffer := (bufferData cfgX.maxBytes [] (mkPayload cfgX 7 dX "pg_log")).1,
        didRequest := true,
        evicted := (bufferData cfgX.maxBytes [] (mkPayload cfgX 7 dX "pg_log")).2 } ∧
    sendToListener cfgX bClosed [] 7 dX "system_metrics" .transportError =
      { sent := false, breaker := breakerFailure bClosed 7,
        buffer := (bufferData cfgX.maxBytes [] (mkPayload cfgX 7 dX "system_metrics")).1,
        didRequest := true,
        evicted := (bufferData cfgX.maxBytes [] (mkPayload cfgX 7 dX "system_metrics")).2 } ∧
    (flushBuffer bClosed [pA] 3 (fun _ => NetOutcome.resp 503)).breaker = bClosed := by
  exact ⟨rfl, by decide,
    c3_send_failure_feeds_breaker_drain_does_not.1 cfgX bClosed [] 7 dX "pg_log" 503 rfl
      (by decide),
    c3_send_failure_feeds_breaker_drain_does_not.2.1 cfgX bClosed [] 7 dX "system_metrics" rfl,
    c3_send_failure_feeds_breaker_drain_does_not.2.2 bClosed [pA] 3 _⟩

/-- Claim C4: while the breaker is in the open state (within its reset
window), `send_to_listener` raises `CircuitBreakerError` before any POST,
buffers the envelope and reports the buffered outcome with no network
request; and `flush_buffer` checks `is_circuit_open` before each item and,
when the breaker is open, stops with no request and the buffer untouched.
(After `reset_timeout` has elapsed the breaker is, per the breaker design,
half-open: the single trial call it then permits is issued in the half-open
state, not the open one.) -/
theorem c4_open_breaker_blocks_network :
    (∀ cfg b buf now data src net t, b.state = .opened t → now < t + b.resetTimeout →
      sendToListener cfg b buf now data src net =
        { sent := false, breaker := b,
          buffer := (bufferData cfg.maxBytes buf (mkPayload cfg now data src)).1,
          didRequest := false,
          evicted := (bufferData cfg.maxBytes buf (mkPayload cfg now data src)).2 }) ∧
    (∀ b buf maxItems net, isCircuitOpen b = true →
      flushBuffer b buf maxItems net =
        { buffer := buf, breaker := b, sent := 0, requests := 0 }) := by
  refine ⟨?_, ?_⟩
  · intro cfg b buf now data src net t hb hnow
    obtain ⟨st, fc, fm, rt⟩ := b
    simp only at hb
    subst hb
    simp only at hnow
    simp [sendToListener, hnow]
  · intro b buf maxItems net hb
    unfold flushBuffer
    by_cases h : buf.length = 0
    · simp [h]
    · simp only [if_neg h]
      cases hmin : min buf.length maxItems with
      | zero => rfl
      | succ f => simp [flushLoop, hb]

/-- Witness for `c4_open_breaker_blocks_network`: a breaker that opened at
time 100 with a 60-second reset window, consulted at time 120. -/
theorem c4_open_breaker_blocks_network_witness :
    bOpen.state = .opened 100 ∧ (120 : Nat) < 100 + bOpen.resetTimeout ∧
    sendToListener cfgX bOpen [] 120 dX "pg_locks" (.resp 200) =
      { sent := false, breaker := bOpen,
        buffer := (bufferData cfgX.maxBytes [] (mkPayload cfgX 120 dX "pg_locks")).1,
        didRequest := false,
        evicted := (bufferData cfgX.maxBytes [] (mkPayload cfgX 120 dX "pg_locks")).2 } ∧
    isCircuitOpen bOpen = true ∧
    flushBuffer bOpen [pA] 50 (fun _ => NetOutcome.resp 200) =
      { buffer := [pA], breaker := bOpen, sent := 0, requests := 0 } := by
  exact ⟨rfl, by decide,
    c4_open_breaker_blocks_network.1 cfgX bOpen [] 120 dX "pg_locks" _ 100 rfl (by decide),
    rfl,
    c4_open_breaker_blocks_network.2 bOpen [pA] 50 _ rfl⟩

/-- Claim C5 (counterexample): 204 lies in [200, 300), yet when
`flush_buffer` re-sends a stored envelope and the listener answers 204 the
entry is **not** acknowledged: `flush_buffer` compares `status_code == 200`
only, so the entry is treated as a failure and kept (re-put). -/
theorem c5_flush_rejects_204 :
    (200 ≤ 204 ∧ 204 < 300) ∧
    flushBuffer bClosed [pA] 50 (fun _ => NetOutcome.resp 204) =
      { buffer := [pA], breaker := bClosed, sent := 0, requests := 1 } := by
  exact ⟨by decide, rfl⟩

/-- Claim C5 (amended): the two send paths use different success criteria,
neither of which is "status in [200, 300)": `flush_buffer` acknowledges and
removes a re-sent entry exactly when the status is 200 and keeps it
(re-put at the tail) for every other status, while `send_to_listener`
counts a response as success exactly when `raise_for_status` does not
raise, i.e. for every status outside [400, 600). -/
theorem c5_success_criteria :
    (∀ b e s net, isCircuitOpen b = false → net 0 = NetOutcome.resp s →
      flushBuffer b [e] 1 net =
        if s = 200 then { buffer := [], breaker := b, sent := 1, requests := 1 }
        else { buffer := [e], breaker := b, sent := 0, requests := 1 }) ∧
    (∀ cfg b buf now data src s, b.state = .closed →
      (sendToListener cfg b buf now data src (.resp s)).sent = !(raisesForStatus s)) := by
  refine ⟨?_, ?_⟩
  · intro b e s net hb hnet
    simp only [flushBuffer, List.length_cons, List.length_nil]
    rw [if_neg (by omega)]
    have hmin : min (0 + 1) 1 = 0 + 1 := rfl
    rw [hmin]
    by_cases hs : s = 200
    · simp [flushLoop, hb, hnet, hs]
    · simp [flushLoop, hb, hnet, hs]
  · intro cfg b buf now data src s hb
    obtain ⟨st, fc, fm, rt⟩ := b
    simp only at hb
    subst hb
    by_cases h : raisesForStatus s
    · simp [sendToListener, attemptPost, h]
    · simp [sendToListener, attemptPost, h]

/-- Witness for `c5_success_criteria`: a 200 drain response acknowledges
the entry, and a 304 response (outside [200,300)) counts as success for
`send_to_listener`. -/
theorem c5_success_criteria_witness :
    isCircuitOpen bClosed = false ∧
    (fun _ : Nat => NetOutcome.resp 200) 0 = NetOutcome.resp 200 ∧
    flushBuffer bClosed [pA] 1 (fun _ => NetOutcome.resp 200) =
      (if 200 = 200 then { buffer := [], breaker := bClosed, sent := 1, requests := 1 }
       else { buffer := [pA], breaker := bClosed, sent := 0, requests := 1 }) ∧
    bClosed.state = .closed ∧
    (sendToListener cfgX bClosed [] 7 dX "pg_log" (.resp 304)).sent = !(raisesForStatus 304) := by
  exact ⟨rfl, rfl,
    c5_success_criteria.1 bClosed pA 200 _ rfl rfl,
    rfl,
    c5_success_criteria.2 cfgX bClosed [] 7 dX "pg_log" 304 rfl⟩

/-- The regex captures of a log line whose message embeds an upstream
`application_name` of the form `bitville-<36-character id>`. -/
def mCorr : LogMatch :=
  ⟨"2024-01-15 10:00:00", 123, none, none, "LOG",
   "connection authorized: application_name=bitville-550e8400-e29b-41d4-a716-446655440000"⟩

/-- Claim C6: `parse_log_line` never inserts a `correlation_id` key into a
parsed entry, so the log pump's flush-on-correlation condition
(`entry.get('correlation_id')`) is never truthy: a log line carrying a
`bitville-<36-character id>` application name is batched like any other
line, and the batch is flushed only at the 500-entry threshold — not
immediately as the daemon's own guard intends. -/
theorem c6_log_pump_never_flushes_on_correlation :
    (∀ m : LogMatch, dictGet (parsedEntry m) "correlation_id" = none) ∧
    pumpStep 500 [] (parsedEntry mCorr) = ([parsedEntry mCorr], false) := by
  constructor
  · intro m
    cases hu : m.user <;> cases hd : m.db <;>
      cases hdu : findDuration m.message <;> cases hst : findStatement m.message <;>
      simp [parsedEntry, optField, dictGet, hu, hd, hdu, hst]
  · rfl

/-- Claim C7 (counterexample): in a tick where every sampler result is
empty, the cycle still sends **two** envelopes — `pg_locks` and
`system_metrics` — because the send section has no emptiness guard on the
system-metrics payload either; the lock envelope is not the single
exception. -/
theorem c7_empty_metrics_envelope_sent :
    (⟨[], [], [], []⟩ : CycleResults Nat).systemMetrics = [] ∧
    cycleSends (⟨[], [], [], []⟩ : CycleResults Nat) = ["pg_locks", "system_metrics"] ∧
    cycleSends (⟨[], [], [], []⟩ : CycleResults Nat) ≠ ["pg_locks"] := by
  exact ⟨rfl, rfl, by decide⟩

/-- Claim C7 (amended): per tick the cycle sends exactly one
`pg_stat_activity` envelope when the activity result is non-empty and none
otherwise, exactly one `pg_stat_statements` envelope when the statements
result is non-empty and none otherwise (in particular it is omitted, not
sent empty), and exactly one `pg_locks` envelope **and** exactly one
`system_metrics` envelope unconditionally — the lock and system-metrics
envelopes are both sent even for empty results. -/
theorem c7_cycle_envelope_policy {α : Type} (r : CycleResults α) :
    (cycleSends r).count "pg_stat_activity" = (if r.pgActivity.isEmpty then 0 else 1) ∧
    (cycleSends r).count "pg_stat_statements" = (if r.pgStatements.isEmpty then 0 else 1) ∧
    (cycleSends r).count "pg_locks" = 1 ∧
    (cycleSends r).count "system_metrics" = 1 ∧
    (cycleSends r).all (fun s => allowedSources.contains s) = true := by
  refine ⟨?_, ?_, ?_, ?_, cycleSends_allowed r⟩ <;>
    cases h1 : r.pgActivity.isEmpty <;> cases h2 : r.pgStatements.isEmpty <;>
      simp [cycleSends, h1, h2]

/-- Claim C8 (counterexample): an empty `BITVILLE_PG_PROJECT_ID`
environment value is accepted by `load_config` (it only tests
`value is not None`) and propagates into every envelope: the built payload
carries `project = ""`. -/
theorem c8_empty_project_id_propagates :
    loadProjectId none (some "") = "" ∧
    (mkPayload ⟨loadProjectId none (some ""), 100⟩ 0 dX "pg_log").project = "" := by
  exact ⟨rfl, rfl⟩

/-- Claim C8 (amended): every envelope's `project` field equals the
configured `project_id` and its `source` field is the tag the daemon
passed, which is always one of the five allowed sources (the four cycle
tags plus `pg_log`); the `project_id` is non-empty for the default and for
every non-empty INI or environment value, but an **empty** supplied value
is not rejected and yields envelopes with an empty project. -/
theorem c8_payload_project_and_source :
    (∀ ini env : Option String, ini ≠ some "" → env ≠ some "" → loadProjectId ini env ≠ "") ∧
    (∀ cfg now data src, (mkPayload cfg now data src).project = cfg.projectId ∧
      (mkPayload cfg now data src).source = src) ∧
    (∀ r : CycleResults Nat, (cycleSends r).all (fun s => allowedSources.contains s) = true) ∧
    allowedSources.contains "pg_log" = true := by
  refine ⟨?_, fun cfg now data src => ⟨rfl, rfl⟩, fun r => cycleSends_allowed r, by decide⟩
  intro ini env h1 h2
  cases env with
  | some v =>
      simp only [loadProjectId, Option.getD_some]
      intro h
      exact h2 (by rw [h])
  | none =>
      cases ini with
      | some u =>
          simp only [loadProjectId, Option.getD_none, Option.getD_some]
          intro h
          exact h1 (by rw [h])
      | none => simp [loadProjectId]

/-- Witness for `c8_payload_project_and_source`: an INI-supplied
`project_id` of `"proj"` with no environment override yields a non-empty
project. -/
theorem c8_payload_project_and_source_witness :
    (some "proj" ≠ some "") ∧ ((none : Option String) ≠ some "") ∧
    loadProjectId (some "proj") none ≠ "" := by
  exact ⟨by decide, by decide,
    c8_payload_project_and_source.1 (some "proj") none (by decide) (by decide)⟩

/-- Claim C10: the `pg_stat_statements` availability flag is written at most
once and never re-checked.  A first check that raises (any error, including
a transient connection failure) caches `False`; once the cache holds a
value, every later check returns it without querying `pg_extension`; and
from a cached `False`, every subsequent `collect_pg_statements` call over
the whole remaining call sequence returns `[]`, issues no query against
`pg_stat_statements`, and leaves the cache at `False`. -/
theorem c10_statements_cache_write_once :
    checkPgStatStatements ⟨none⟩ .exc =
      { available := false, state := ⟨some false⟩, queriedExtension := true } ∧
    (∀ s v db, s.extensionAvailable = some v →
      checkPgStatStatements s db = { available := v, state := s, queriedExtension := false }) ∧
    (∀ (calls : List (DbCheckOutcome × List Nat)),
      ∀ r ∈ collectRun (⟨some false⟩ : StmtState) calls,
        r.rows = [] ∧ r.queriedStatements = false ∧ r.state = ⟨some false⟩) := by
  refine ⟨rfl, ?_, ?_⟩
  · intro s v db h
    obtain ⟨ea⟩ := s
    simp only at h
    subst h
    rfl
  · intro calls
    induction calls with
    | nil => intro r hr; simp [collectRun] at hr
    | cons c rest ih =>
        intro r hr
        have hhead : collectPgStatements (⟨some false⟩ : StmtState) c.1 c.2 =
            { rows := [], state := ⟨some false⟩, queriedStatements := false } := rfl
        simp only [collectRun, hhead, List.mem_cons] at hr
        rcases hr with h | h
        · subst h
          exact ⟨rfl, rfl, rfl⟩
        · exact ih r h

/-- Witness for `c10_statements_cache_write_once`: the cached-`True` branch
of the check, and a two-call run after a cached `False`. -/
theorem c10_statements_cache_write_once_witness :
    (StmtState.mk (some true)).extensionAvailable = some true ∧
    checkPgStatStatements ⟨some true⟩ .exc =
      { available := true, state := ⟨some true⟩, queriedExtension := false } ∧
    ((collectPgStatements (⟨some false⟩ : StmtState) (.ok (some 5)) [3]) ∈
        collectRun (⟨some false⟩ : StmtState) [((.ok (some 5) : DbCheckOutcome), [3])] ∧
      (collectPgStatements (⟨some false⟩ : StmtState) (.ok (some 5)) [3]).rows = ([] : List Nat)) := by
  refine ⟨rfl, c10_statements_cache_write_once.2.1 ⟨some true⟩ true .exc rfl, ?_, ?_⟩
  · simp [collectRun]
  · exact (c10_statements_cache_write_once.2.2 [((.ok (some 5) : DbCheckOutcome), [3])]
      (collectPgStatements (⟨some false⟩ : StmtState) (.ok (some 5)) [3])
      (by simp [collectRun])).1

end AgentProfiler
